import Mathlib

/-!
Shallow embedding of the Project Nova scoring pipeline (`src/api.py`, with the
same pipeline duplicated in `app/streamlit_app.py`).

Floating-point numbers are modelled as `Val`: an exact rational, positive or
negative infinity, or NaN, following IEEE-754 / numpy semantics for the
operations the pipeline actually performs (in particular, dividing a nonzero
number by zero yields an infinity, not an exception — pandas raises nothing).
A one-row pandas DataFrame is modelled as an association list of column name
to cell; a cell is either a numeric `Val` or a string (the `city_district`
column before one-hot encoding).
-/

/-- A pandas/numpy scalar: finite rational, +inf, -inf, or NaN. -/
inductive Val where
  | num (q : ℚ)
  | inf
  | ninf
  | nan
deriving DecidableEq

/-- IEEE-style multiplication on `Val` (used for `rating_x_tenure`). -/
def Val.mul : Val → Val → Val
  | .nan, _ => .nan
  | .num _, .nan => .nan
  | .inf, .nan => .nan
  | .ninf, .nan => .nan
  | .num a, .num b => .num (a * b)
  | .inf, .inf => .inf
  | .inf, .ninf => .ninf
  | .ninf, .inf => .ninf
  | .ninf, .ninf => .inf
  | .inf, .num b => if b = 0 then .nan else if 0 < b then .inf else .ninf
  | .num a, .inf => if a = 0 then .nan else if 0 < a then .inf else .ninf
  | .ninf, .num b => if b = 0 then .nan else if 0 < b then .ninf else .inf
  | .num a, .ninf => if a = 0 then .nan else if 0 < a then .ninf else .inf

/-- IEEE-style division on `Val` (used for `earnings_per_trip`).
Dividing a nonzero finite number by zero yields a signed infinity and `0/0`
yields NaN, exactly as numpy does inside `input_df['avg_weekly_earnings'] /
input_df['avg_weekly_trips']` — no exception is raised. -/
def Val.div : Val → Val → Val
  | .nan, _ => .nan
  | .num _, .nan => .nan
  | .inf, .nan => .nan
  | .ninf, .nan => .nan
  | .num a, .num b =>
      if b = 0 then (if a = 0 then .nan else if 0 < a then .inf else .ninf)
      else .num (a / b)
  | .inf, .num b => if 0 ≤ b then .inf else .ninf
  | .ninf, .num b => if 0 ≤ b then .ninf else .inf
  | .num _, .inf => .num 0
  | .num _, .ninf => .num 0
  | .inf, .inf => .nan
  | .inf, .ninf => .nan
  | .ninf, .inf => .nan
  | .ninf, .ninf => .nan

/-- A DataFrame cell: numeric value or string (pre-encoding `city_district`). -/
inductive Cell where
  | v (x : Val)
  | s (t : String)
deriving DecidableEq

/-- A one-row DataFrame: ordered association list of column name to cell. -/
abbrev Row := List (String × Cell)

/-- Column access `df[c]` on a one-row frame: first column named `c`. -/
def lookupCol : Row → String → Option Cell
  | [], _ => none
  | p :: t, c => if p.1 == c then some p.2 else lookupCol t c

/-- Column assignment `df[c] = x`: overwrite in place if the column exists,
otherwise append it as the last column. -/
def setCol (r : Row) (c : String) (x : Cell) : Row :=
  if r.any (fun p => p.1 == c) then r.map (fun p => if p.1 == c then (c, x) else p)
  else r ++ [(c, x)]

/-- Numeric content of an optional cell; a missing or string cell would make
pandas raise (KeyError / TypeError), a path the pipeline never reaches, and is
mapped to NaN here. -/
def cellValOf : Option Cell → Val
  | some (.v x) => x
  | _ => .nan

/-- The minimal 5-field request body accepted by the `/predict` endpoint
(`api.py` line 27: "Get the 5 features from the simple HTML form"). -/
structure PartnerInput where
  tenure_months : ℚ
  city_district : String
  avg_customer_rating : ℚ
  avg_weekly_earnings : ℚ
  avg_weekly_trips : ℚ

/-- `pd.DataFrame(data, index=[0])`: the one-row frame built from the JSON. -/
def toRow (inp : PartnerInput) : Row :=
  [("tenure_months", Cell.v (Val.num inp.tenure_months)),
   ("city_district", Cell.s inp.city_district),
   ("avg_customer_rating", Cell.v (Val.num inp.avg_customer_rating)),
   ("avg_weekly_earnings", Cell.v (Val.num inp.avg_weekly_earnings)),
   ("avg_weekly_trips", Cell.v (Val.num inp.avg_weekly_trips))]

/-- Feature Completion, `api.py` lines 36-41: the six behavioral columns are
assigned the fixed constants (unconditional assignments). -/
def addDefaults (r : Row) : Row :=
  setCol (setCol (setCol (setCol (setCol (setCol r
    "safety_score" (Cell.v (Val.num 85)))
    "grab_pay_usage_rate" (Cell.v (Val.num (1/2))))
    "peak_hour_percentage" (Cell.v (Val.num (1/2))))
    "acceptance_rate" (Cell.v (Val.num (19/20))))
    "cancellation_rate" (Cell.v (Val.num (1/20))))
    "earnings_stability_score" (Cell.v (Val.num 2000))

/-- Feature Derivation, `api.py` lines 44-45: `earnings_per_trip` and
`rating_x_tenure` are computed from the current columns and assigned. -/
def deriveFeatures (r : Row) : Row :=
  let r1 := setCol r "earnings_per_trip"
    (Cell.v (Val.div (cellValOf (lookupCol r "avg_weekly_earnings"))
                     (cellValOf (lookupCol r "avg_weekly_trips"))))
  setCol r1 "rating_x_tenure"
    (Cell.v (Val.mul (cellValOf (lookupCol r1 "avg_customer_rating"))
                     (cellValOf (lookupCol r1 "tenure_months"))))

/-- `pd.get_dummies(df, columns=[col], drop_first=True)` on a ONE-ROW frame,
`api.py` line 48. The categories pandas sees are the distinct values present
in the column — for a single row, exactly the one value it holds. The original
column is removed and one indicator column per retained category is appended;
with `drop_first=True` the first (and, for one row, only) category is dropped,
so no indicator column at all is produced. Branches for a missing or
non-string column (pandas KeyError / numeric dummies) are never reached by the
pipeline and leave the row unchanged. -/
def getDummiesOneRow (r : Row) (col : String) (dropFirst : Bool) : Row :=
  match lookupCol r col with
  | some (.s c) =>
      let kept := if dropFirst then ([] : List String) else [c]
      r.filter (fun p => !(p.1 == col)) ++
        kept.map (fun k => (col ++ "_" ++ k, Cell.v (Val.num 1)))
  | _ => r

/-- Schema alignment step 1, `api.py` lines 52-54: every training column
missing from the record is appended with value `0`. -/
def addMissing (r : Row) (schema : List String) : Row :=
  schema.foldl
    (fun acc c =>
      if acc.any (fun p => p.1 == c) then acc else acc ++ [(c, Cell.v (Val.num 0))])
    r

/-- Schema alignment step 2, `api.py` line 57: `df[training_cols]` selects the
training columns in schema order, discarding all others. After `addMissing`
every requested column exists, so the NaN default is unreachable. -/
def selectCols (r : Row) (cols : List String) : Row :=
  cols.map (fun c => (c, (lookupCol r c).getD (Cell.v Val.nan)))

/-- The full Schema Aligner, `api.py` lines 51-57. -/
def alignColumns (r : Row) (schema : List String) : Row :=
  selectCols (addMissing r schema) schema

/-- The opaque trained classifier: its ordered training feature names
(`model.get_booster().feature_names`) and the class-0 column of
`model.predict_proba` (the "repayment" probability, `api.py` line 62). -/
structure Model where
  feature_names : List String
  predict_proba0 : Row → ℚ

/-- The processed record right before alignment: completion, derivation,
one-hot encoding (`api.py` lines 29-48). -/
def processRow (inp : PartnerInput) : Row :=
  getDummiesOneRow (deriveFeatures (addDefaults (toRow inp))) "city_district" true

/-- The repayment probability the model produces for a request. -/
def proba (m : Model) (inp : PartnerInput) : ℚ :=
  m.predict_proba0 (alignColumns (processRow inp) m.feature_names)

/-- Python `int()`: truncation toward zero. -/
def pyInt (q : ℚ) : ℤ :=
  if q < 0 then -(⌊-q⌋) else ⌊q⌋

/-- Python `round()` to an integer: round half to even. -/
def pyRound (q : ℚ) : ℤ :=
  if q - ⌊q⌋ < 1/2 then ⌊q⌋
  else if 1/2 < q - ⌊q⌋ then ⌊q⌋ + 1
  else if 2 ∣ ⌊q⌋ then ⌊q⌋ else ⌊q⌋ + 1

/-- The score the code computes, `api.py` lines 63 and 67:
`int(300 + repayment_prob * 550)`. -/
def novaScoreCode (p : ℚ) : ℤ := pyInt (300 + p * 550)

/-- Modelled from the spec: "nova_score = 300 + round(repayment_probability *
550)". Written from the spec's words to compare against `novaScoreCode`. -/
def novaScoreSpec (p : ℚ) : ℤ := 300 + pyRound (p * 550)

/-- Two-digit zero-padded rendering of a number below 100. -/
def pad2 (k : ℕ) : String := if k < 10 then "0" ++ toString k else toString k

/-- Rendering of a number of hundredths as a fixed-point decimal string. -/
def render2 (n : ℤ) : String :=
  if n < 0 then "-" ++ toString (n.natAbs / 100) ++ "." ++ pad2 (n.natAbs % 100)
  else toString (n.natAbs / 100) ++ "." ++ pad2 (n.natAbs % 100)

/-- Fixed-point rendering with two decimal places (round half to even),
as Python `format(x, '.2f')` does on our exact-rational model of floats. -/
def format2 (x : ℚ) : String := render2 (pyRound (x * 100))

/-- Python `f"{p:.2%}"`, `api.py` line 68: multiply by 100, render with two
decimals, append a percent sign. -/
def formatPercent (p : ℚ) : String := format2 (p * 100) ++ "%"

/-- The JSON body returned on success, `api.py` lines 66-69: `nova_score` is
`int(...)` and `repayment_probability` is the percent-formatted string. -/
structure ApiResponse where
  nova_score : ℤ
  repayment_probability : String
deriving DecidableEq

/-- The `/predict` handler, `api.py` lines 22-69. A `None` model (load failed
at process start) makes every request return the error payload
`{'error': 'Model not loaded on the server'}` with HTTP status 500 — the
spec's `ModelUnavailable` service-level error. -/
def predict (model : Option Model) (inp : PartnerInput) :
    Except (String × ℕ) ApiResponse :=
  match model with
  | none => Except.error ("Model not loaded on the server", 500)
  | some m =>
      let p := m.predict_proba0 (alignColumns (processRow inp) m.feature_names)
      Except.ok ⟨pyInt (300 + p * 550), formatPercent p⟩

set_option maxHeartbeats 1000000

/-! ### Association-list lemmas about the row operations -/

theorem lookupCol_append_of_some (r s : Row) (c : String) (y : Cell)
    (h : lookupCol r c = some y) : lookupCol (r ++ s) c = some y := by
  induction r with
  | nil => exact absurd h (by simp [lookupCol])
  | cons p t ih =>
    rw [List.cons_append]
    cases hp : (p.1 == c) with
    | true => simp only [lookupCol, hp, if_true] at h ⊢; exact h
    | false =>
      simp only [lookupCol, hp, if_false] at h ⊢
      exact ih h

theorem lookupCol_append_of_none (r s : Row) (c : String)
    (h : lookupCol r c = none) : lookupCol (r ++ s) c = lookupCol s c := by
  induction r with
  | nil => rfl
  | cons p t ih =>
    rw [List.cons_append]
    cases hp : (p.1 == c) with
    | true => simp only [lookupCol, hp, if_true] at h; exact absurd h (by simp)
    | false =>
      simp only [lookupCol, hp, if_false] at h ⊢
      exact ih h

theorem lookupCol_eq_none_of_any_false (r : Row) (c : String)
    (h : r.any (fun p => p.1 == c) = false) : lookupCol r c = none := by
  induction r with
  | nil => rfl
  | cons p t ih =>
    simp only [List.any_cons, Bool.or_eq_false_iff] at h
    simp only [lookupCol, h.1, if_false]
    exact ih h.2

theorem lookupCol_isSome_of_any_true (r : Row) (c : String)
    (h : r.any (fun p => p.1 == c) = true) : (lookupCol r c).isSome = true := by
  induction r with
  | nil => simp at h
  | cons p t ih =>
    cases hp : (p.1 == c) with
    | true => simp [lookupCol, hp]
    | false =>
      simp only [List.any_cons, hp, Bool.false_or] at h
      simp only [lookupCol, hp, if_false]
      exact ih h

theorem lookupCol_map_overwrite_self (r : Row) (c : String) (x : Cell)
    (h : r.any (fun p => p.1 == c) = true) :
    lookupCol (r.map (fun p => if p.1 == c then (c, x) else p)) c = some x := by
  induction r with
  | nil => simp at h
  | cons p t ih =>
    by_cases hp : p.1 = c
    · simp [lookupCol, hp]
    · have hb : (p.1 == c) = false := beq_eq_false_iff_ne.mpr hp
      simp only [List.any_cons, hb, Bool.false_or] at h
      simp only [List.map_cons, hb, Bool.false_eq_true, if_false, lookupCol]
      exact ih h

theorem lookupCol_map_overwrite_other (r : Row) (c c' : String) (x : Cell)
    (hne : c' ≠ c) :
    lookupCol (r.map (fun p => if p.1 == c then (c, x) else p)) c' = lookupCol r c' := by
  induction r with
  | nil => rfl
  | cons p t ih =>
    by_cases hp : p.1 = c
    · have hb : (p.1 == c) = true := beq_iff_eq.mpr hp
      have hcc : (c == c') = false := beq_eq_false_iff_ne.mpr (Ne.symm hne)
      have hpc : (p.1 == c') = false := by rw [hp]; exact hcc
      simp only [List.map_cons, hb, if_true, lookupCol, hcc, hpc, Bool.false_eq_true,
        if_false]
      exact ih
    · have hb : (p.1 == c) = false := beq_eq_false_iff_ne.mpr hp
      simp only [List.map_cons, hb, Bool.false_eq_true, if_false, lookupCol]
      cases hpc : (p.1 == c') with
      | true => simp only [hpc, if_true]
      | false =>
        simp only [hpc, Bool.false_eq_true, if_false]
        exact ih

theorem lookupCol_setCol_self (r : Row) (c : String) (x : Cell) :
    lookupCol (setCol r c x) c = some x := by
  unfold setCol
  cases hany : r.any (fun p => p.1 == c) with
  | true =>
    simp only [hany, if_true]
    exact lookupCol_map_overwrite_self r c x hany
  | false =>
    simp only [hany, Bool.false_eq_true, if_false]
    rw [lookupCol_append_of_none r _ c (lookupCol_eq_none_of_any_false r c hany)]
    simp [lookupCol]

theorem lookupCol_setCol_other (r : Row) (c c' : String) (x : Cell) (hne : c' ≠ c) :
    lookupCol (setCol r c x) c' = lookupCol r c' := by
  unfold setCol
  cases hany : r.any (fun p => p.1 == c) with
  | true =>
    simp only [hany, if_true]
    exact lookupCol_map_overwrite_other r c c' x hne
  | false =>
    simp only [hany, Bool.false_eq_true, if_false]
    cases hc : lookupCol r c' with
    | some y => exact lookupCol_append_of_some r _ c' y hc
    | none =>
      rw [lookupCol_append_of_none r _ c' hc]
      have hcc : (c == c') = false := beq_eq_false_iff_ne.mpr (Ne.symm hne)
      simp [lookupCol, hcc]

theorem addMissing_cons (r : Row) (c0 : String) (t : List String) :
    addMissing r (c0 :: t) =
      addMissing (if r.any (fun p => p.1 == c0) then r
                  else r ++ [(c0, Cell.v (Val.num 0))]) t := rfl

theorem lookupCol_addMissing (schema : List String) (r : Row) (c : String) :
    lookupCol (addMissing r schema) c =
      (lookupCol r c).or (if c ∈ schema then some (Cell.v (Val.num 0)) else none) := by
  induction schema generalizing r with
  | nil => cases hl : lookupCol r c <;> simp [addMissing, hl]
  | cons c0 t ih =>
    rw [addMissing_cons]
    cases hany : r.any (fun p => p.1 == c0) with
    | true =>
      rw [if_pos rfl, ih]
      cases hl : lookupCol r c with
      | some y => rfl
      | none =>
        by_cases hcc : c = c0
        · subst hcc
          have := lookupCol_isSome_of_any_true r c hany
          rw [hl] at this
          simp at this
        · simp [List.mem_cons, hcc]
    | false =>
      rw [if_neg Bool.false_ne_true, ih]
      by_cases hcc : c = c0
      · subst hcc
        have hnone : lookupCol r c = none := lookupCol_eq_none_of_any_false r c hany
        rw [lookupCol_append_of_none r _ c hnone, hnone]
        simp [lookupCol]
      · cases hl : lookupCol r c with
        | some y => rw [lookupCol_append_of_some r _ c y hl]; rfl
        | none =>
          rw [lookupCol_append_of_none r _ c hl]
          have hb : (c0 == c) = false := beq_eq_false_iff_ne.mpr (Ne.symm hcc)
          simp [lookupCol, hb, List.mem_cons, hcc]

theorem selectCols_cons (r : Row) (c0 : String) (t : List String) :
    selectCols r (c0 :: t) =
      (c0, (lookupCol r c0).getD (Cell.v Val.nan)) :: selectCols r t := rfl

theorem lookupCol_selectCols (r : Row) (cols : List String) (c : String) :
    lookupCol (selectCols r cols) c =
      if c ∈ cols then some ((lookupCol r c).getD (Cell.v Val.nan)) else none := by
  induction cols with
  | nil => simp [selectCols, lookupCol]
  | cons c0 t ih =>
    rw [selectCols_cons]
    by_cases hc : c = c0
    · subst hc
      simp [lookupCol]
    · have hb : (c0 == c) = false := beq_eq_false_iff_ne.mpr (Ne.symm hc)
      simp only [lookupCol, hb, Bool.false_eq_true, if_false]
      rw [ih]
      simp [List.mem_cons, hc]

theorem map_fst_selectCols (r : Row) (cols : List String) :
    (selectCols r cols).map Prod.fst = cols := by
  simp [selectCols, List.map_map, Function.comp_def]

theorem lookupCol_alignColumns (r : Row) (schema : List String) (c : String)
    (hc : c ∈ schema) :
    lookupCol (alignColumns r schema) c =
      some ((lookupCol r c).getD (Cell.v (Val.num 0))) := by
  unfold alignColumns
  rw [lookupCol_selectCols, if_pos hc, lookupCol_addMissing]
  cases hl : lookupCol r c with
  | some y => rfl
  | none => simp [hc]

theorem alignColumns_get? (r : Row) (schema : List String) (i : ℕ) :
    (alignColumns r schema).get? i =
      (schema.get? i).map (fun c => (c, (lookupCol r c).getD (Cell.v (Val.num 0)))) := by
  unfold alignColumns selectCols
  rw [List.get?_map]
  cases hs : schema.get? i with
  | none => rfl
  | some c =>
    have hmem : c ∈ schema := List.get?_mem hs
    show some (c, (lookupCol (addMissing r schema) c).getD (Cell.v Val.nan)) =
      some (c, (lookupCol r c).getD (Cell.v (Val.num 0)))
    rw [lookupCol_addMissing]
    cases hl : lookupCol r c with
    | some y => rfl
    | none => simp [hmem]

/-! ### Evaluated forms of the pipeline stages on an API request -/

/-- The completed row of an API request: the five submitted columns followed
by the six behavioral defaults, in assignment order. -/
def baseRow (inp : PartnerInput) : Row :=
  [("tenure_months", Cell.v (Val.num inp.tenure_months)),
   ("city_district", Cell.s inp.city_district),
   ("avg_customer_rating", Cell.v (Val.num inp.avg_customer_rating)),
   ("avg_weekly_earnings", Cell.v (Val.num inp.avg_weekly_earnings)),
   ("avg_weekly_trips", Cell.v (Val.num inp.avg_weekly_trips)),
   ("safety_score", Cell.v (Val.num 85)),
   ("grab_pay_usage_rate", Cell.v (Val.num (1/2))),
   ("peak_hour_percentage", Cell.v (Val.num (1/2))),
   ("acceptance_rate", Cell.v (Val.num (19/20))),
   ("cancellation_rate", Cell.v (Val.num (1/20))),
   ("earnings_stability_score", Cell.v (Val.num 2000))]

theorem addDefaults_toRow (inp : PartnerInput) :
    addDefaults (toRow inp) = baseRow inp := by
  simp [addDefaults, setCol, toRow, baseRow]

/-- The two derived columns the pipeline appends to a completed API row. -/
def derivedCols (inp : PartnerInput) : Row :=
  [("earnings_per_trip",
      Cell.v (Val.div (Val.num inp.avg_weekly_earnings) (Val.num inp.avg_weekly_trips))),
   ("rating_x_tenure",
      Cell.v (Val.mul (Val.num inp.avg_customer_rating) (Val.num inp.tenure_months)))]

theorem deriveFeatures_baseRow (inp : PartnerInput) :
    deriveFeatures (baseRow inp) = baseRow inp ++ derivedCols inp := by
  simp [deriveFeatures, baseRow, derivedCols, setCol, lookupCol, cellValOf]

/-- The encoded record right before schema alignment: the district column is
gone (one-hot with `drop_first` on a one-row frame produces no indicator
columns), everything else is untouched. Note this row does not depend on
`inp.city_district` at all. -/
def encodedRow (inp : PartnerInput) : Row :=
  [("tenure_months", Cell.v (Val.num inp.tenure_months)),
   ("avg_customer_rating", Cell.v (Val.num inp.avg_customer_rating)),
   ("avg_weekly_earnings", Cell.v (Val.num inp.avg_weekly_earnings)),
   ("avg_weekly_trips", Cell.v (Val.num inp.avg_weekly_trips)),
   ("safety_score", Cell.v (Val.num 85)),
   ("grab_pay_usage_rate", Cell.v (Val.num (1/2))),
   ("peak_hour_percentage", Cell.v (Val.num (1/2))),
   ("acceptance_rate", Cell.v (Val.num (19/20))),
   ("cancellation_rate", Cell.v (Val.num (1/20))),
   ("earnings_stability_score", Cell.v (Val.num 2000)),
   ("earnings_per_trip",
      Cell.v (Val.div (Val.num inp.avg_weekly_earnings) (Val.num inp.avg_weekly_trips))),
   ("rating_x_tenure",
      Cell.v (Val.mul (Val.num inp.avg_customer_rating) (Val.num inp.tenure_months)))]

theorem processRow_eq (inp : PartnerInput) : processRow inp = encodedRow inp := by
  rw [processRow, addDefaults_toRow, deriveFeatures_baseRow]
  simp [getDummiesOneRow, baseRow, derivedCols, encodedRow, lookupCol, List.filter]

theorem processRow_update (inp : PartnerInput) (d : String) :
    processRow { inp with city_district := d } = encodedRow inp := by
  rw [processRow_eq]
  rfl

/-! ### Demonstration model and profiles used for concrete evaluations -/

/-- A training schema of the shape the notebook's model exposes: the numeric
features, the two derived features, and the drop-first district indicators. -/
def demoSchema : List String :=
  ["tenure_months", "avg_customer_rating", "safety_score", "avg_weekly_earnings",
   "avg_weekly_trips", "grab_pay_usage_rate", "acceptance_rate", "cancellation_rate",
   "peak_hour_percentage", "earnings_stability_score", "earnings_per_trip",
   "rating_x_tenure", "city_district_North", "city_district_South", "city_district_West"]

/-- A stand-in classifier whose repayment probability is 1/2 everywhere. -/
def demoModelHalf : Model := ⟨demoSchema, fun _ => 1/2⟩

/-- A stand-in classifier whose repayment probability is 1/1000 everywhere. -/
def demoModelLow : Model := ⟨demoSchema, fun _ => 1/1000⟩

/-- The spec's concrete scenario profile (East district, rating 4.8). -/
def eastProfile : PartnerInput := ⟨24, "East", 24/5, 15000, 80⟩

/-- The same profile with zero weekly trips. -/
def tripsZeroProfile : PartnerInput := ⟨24, "East", 24/5, 15000, 0⟩

/-- The same profile with a district outside the four known categories. -/
def unknownProfile : PartnerInput := ⟨24, "Unknown", 24/5, 15000, 80⟩

theorem predict_constModel (s : List String) (q : ℚ) (inp : PartnerInput) :
    predict (some ⟨s, fun _ => q⟩) inp =
      Except.ok ⟨pyInt (300 + q * 550), formatPercent q⟩ := rfl

theorem predict_some (m : Model) (inp : PartnerInput) :
    predict (some m) inp =
      Except.ok ⟨pyInt (300 + proba m inp * 550), formatPercent (proba m inp)⟩ := rfl

theorem pyInt_half_score : pyInt (300 + (1/2 : ℚ) * 550) = 575 := by
  norm_num [pyInt]

theorem pyRound_half_pct : pyRound ((1/2 : ℚ) * 100 * 100) = 5000 := by
  norm_num [pyRound]

theorem formatPercent_half : formatPercent (1/2 : ℚ) = "50.00%" := by
  rw [formatPercent, format2, pyRound_half_pct]
  rfl

theorem predict_demoHalf (inp : PartnerInput) :
    predict (some demoModelHalf) inp = Except.ok ⟨575, "50.00%"⟩ := by
  rw [show demoModelHalf = ⟨demoSchema, fun _ => (1/2 : ℚ)⟩ from rfl,
    predict_constModel, pyInt_half_score, formatPercent_half]

theorem pyInt_low_score : pyInt (300 + (1/1000 : ℚ) * 550) = 300 := by
  norm_num [pyInt]

theorem pyRound_low_pct : pyRound ((1/1000 : ℚ) * 100 * 100) = 10 := by
  norm_num [pyRound]

theorem formatPercent_low : formatPercent (1/1000 : ℚ) = "0.10%" := by
  rw [formatPercent, format2, pyRound_low_pct]
  rfl

theorem predict_demoLow (inp : PartnerInput) :
    predict (some demoModelLow) inp = Except.ok ⟨300, "0.10%"⟩ := by
  rw [show demoModelLow = ⟨demoSchema, fun _ => (1/1000 : ℚ)⟩ from rfl,
    predict_constModel, pyInt_low_score, formatPercent_low]

theorem lookupCol_encodedRow_district (inp : PartnerInput) (cat : String)
    (hcat : cat ∈ (["North", "South", "East", "West"] : List String)) :
    lookupCol (encodedRow inp) ("city_district_" ++ cat) = none := by
  fin_cases hcat <;> simp [encodedRow, lookupCol]

/-! ### The claims -/

/-- C1: for every record, the Schema Aligner's output has exactly the length
of the training schema, its column names appear per-position in schema order,
every schema name absent from the record is inserted with value 0, every
record column outside the schema is discarded (position `i` of the output is
fully determined by schema position `i`), and alignment is a total function —
no exception arises from a shape mismatch alone. -/
theorem claim_C1_schema_aligner (row : Row) (schema : List String) (i : ℕ) :
    (alignColumns row schema).map Prod.fst = schema ∧
    (alignColumns row schema).length = schema.length ∧
    (alignColumns row schema).get? i =
      (schema.get? i).map (fun c => (c, (lookupCol row c).getD (Cell.v (Val.num 0)))) := by
  refine ⟨?_, ?_, alignColumns_get? row schema i⟩
  · exact map_fst_selectCols _ _
  · simp [alignColumns, selectCols]

/-- C2 counterexample: the code computes `int(300 + p * 550)` — truncation —
not `300 + round(p * 550)`. At probability `p = 1/1000` the produced result
carries `nova_score = 300`, while the spec formula `300 + round(p * 550) =
300 + round(0.55)` gives 301. -/
theorem claim_C2_counterexample :
    predict (some demoModelLow) eastProfile = Except.ok ⟨300, "0.10%"⟩ ∧
    novaScoreSpec (1/1000) = 301 := by
  refine ⟨predict_demoLow eastProfile, ?_⟩
  norm_num [novaScoreSpec, pyRound]

/-- C2 amended: for every produced result, `nova_score` is exactly
`int(300 + repayment_probability * 550)`, i.e. `300 + floor(probability * 550)`
(truncation by Python `int()`, not rounding), where the probability is the
model's class-0 output on the aligned feature vector. -/
theorem claim_C2_amended (m : Model) (inp : PartnerInput) (h : 0 ≤ proba m inp) :
    predict (some m) inp =
      Except.ok ⟨300 + ⌊proba m inp * 550⌋, formatPercent (proba m inp)⟩ := by
  have hq : (0:ℚ) ≤ 300 + proba m inp * 550 := by
    have := mul_nonneg h (by norm_num : (0:ℚ) ≤ 550)
    linarith
  have hpi : pyInt (300 + proba m inp * 550) = 300 + ⌊proba m inp * 550⌋ := by
    rw [pyInt, if_neg (not_lt.mpr hq),
      show (300 : ℚ) + proba m inp * 550 = proba m inp * 550 + ((300:ℤ):ℚ) by push_cast; ring,
      Int.floor_add_int]
    omega
  rw [predict_some, hpi]

/-- C2 amended, witness at the demo model with constant probability 1/2. -/
theorem claim_C2_amended_witness :
    predict (some demoModelHalf) eastProfile = Except.ok ⟨575, "50.00%"⟩ := by
  have h := claim_C2_amended demoModelHalf eastProfile (by norm_num [proba, demoModelHalf])
  have hp : proba demoModelHalf eastProfile = 1/2 := by norm_num [proba, demoModelHalf]
  rw [h, hp, formatPercent_half]
  simp only [Except.ok.injEq, ApiResponse.mk.injEq]
  norm_num

/-- C3: two requests identical except for `city_district` produce identical
processed records (one-hot with `drop_first` on a one-row frame erases the
district entirely), every district indicator column present in the training
schema is zero after alignment, and both requests receive the same result. -/
theorem claim_C3_district_independence (m : Model) (inp : PartnerInput) (d1 d2 : String)
    (h1 : d1 ∈ (["North", "South", "East", "West"] : List String))
    (h2 : d2 ∈ (["North", "South", "East", "West"] : List String)) :
    processRow { inp with city_district := d1 } =
      processRow { inp with city_district := d2 } ∧
    (∀ cat ∈ (["North", "South", "East", "West"] : List String),
      ("city_district_" ++ cat) ∈ m.feature_names →
      lookupCol (alignColumns (processRow { inp with city_district := d1 })
        m.feature_names) ("city_district_" ++ cat) = some (Cell.v (Val.num 0))) ∧
    predict (some m) { inp with city_district := d1 } =
      predict (some m) { inp with city_district := d2 } := by
  refine ⟨?_, ?_, ?_⟩
  · rw [processRow_update, processRow_update]
  · intro cat hcat hmem
    rw [processRow_update, lookupCol_alignColumns _ _ _ hmem,
      lookupCol_encodedRow_district inp cat hcat]
    rfl
  · simp only [predict]
    rw [processRow_update, processRow_update]

/-- C3 witness: with the demo model, a North request and a South request that
agree on everything else get the same response. -/
theorem claim_C3_witness :
    predict (some demoModelHalf) { eastProfile with city_district := "North" } =
      predict (some demoModelHalf) { eastProfile with city_district := "South" } :=
  (claim_C3_district_independence demoModelHalf eastProfile "North" "South"
    (by simp) (by simp)).2.2

/-- C4 counterexample: a profile that already carries `safety_score = 99` has
it overwritten by the constant 85 — `api.py` line 36 assigns unconditionally,
so present attributes are NOT preserved. -/
theorem claim_C4_counterexample :
    lookupCol (addDefaults [("safety_score", Cell.v (Val.num 99))]) "safety_score"
      ≠ some (Cell.v (Val.num 99)) := by
  have h : lookupCol (addDefaults [("safety_score", Cell.v (Val.num 99))]) "safety_score"
      = some (Cell.v (Val.num 85)) := by
    simp [addDefaults, lookupCol_setCol_self, lookupCol_setCol_other]
  rw [h]
  intro hcontra
  simp only [Option.some.injEq, Cell.v.injEq, Val.num.injEq] at hcontra
  norm_num at hcontra

/-- C4 amended: Feature Completion assigns the six behavioral attributes the
fixed constants 85.0, 0.5, 0.5, 0.95, 0.05, 2000 unconditionally — missing
attributes are filled in and already-present values are overwritten. -/
theorem claim_C4_amended (r : Row) :
    lookupCol (addDefaults r) "safety_score" = some (Cell.v (Val.num 85)) ∧
    lookupCol (addDefaults r) "grab_pay_usage_rate" = some (Cell.v (Val.num (1/2))) ∧
    lookupCol (addDefaults r) "peak_hour_percentage" = some (Cell.v (Val.num (1/2))) ∧
    lookupCol (addDefaults r) "acceptance_rate" = some (Cell.v (Val.num (19/20))) ∧
    lookupCol (addDefaults r) "cancellation_rate" = some (Cell.v (Val.num (1/20))) ∧
    lookupCol (addDefaults r) "earnings_stability_score" = some (Cell.v (Val.num 2000)) := by
  refine ⟨?_, ?_, ?_, ?_, ?_, ?_⟩ <;>
    simp [addDefaults, lookupCol_setCol_self, lookupCol_setCol_other]

/-- C5 counterexample: a request with `city_district = "Unknown"` does NOT
fail — no UnknownCategory error exists in the code. `get_dummies` with
`drop_first` on the one-row frame drops the lone category, alignment
zero-fills every district indicator, and a normal score is returned: an
all-zero encoding indistinguishable from the reference class. -/
theorem claim_C5_counterexample :
    predict (some demoModelHalf) unknownProfile = Except.ok ⟨575, "50.00%"⟩ ∧
    lookupCol (alignColumns (processRow unknownProfile) demoSchema)
      "city_district_North" = some (Cell.v (Val.num 0)) ∧
    lookupCol (alignColumns (processRow unknownProfile) demoSchema)
      "city_district_South" = some (Cell.v (Val.num 0)) ∧
    lookupCol (alignColumns (processRow unknownProfile) demoSchema)
      "city_district_West" = some (Cell.v (Val.num 0)) := by
  refine ⟨predict_demoHalf unknownProfile, ?_, ?_, ?_⟩ <;>
  · rw [processRow_eq, lookupCol_alignColumns _ _ _ (by simp [demoSchema])]
    simp [encodedRow, lookupCol]

/-- C5 amended: an input whose `city_district` is outside the four known
categories is silently accepted: the request still succeeds, and every
district indicator column of the schema is zero after alignment — exactly the
all-zero encoding of the reference class, with no error raised. -/
theorem claim_C5_amended (m : Model) (inp : PartnerInput)
    (h : inp.city_district ∉ (["North", "South", "East", "West"] : List String)) :
    (∃ r, predict (some m) inp = Except.ok r) ∧
    (∀ cat ∈ (["North", "South", "East", "West"] : List String),
      ("city_district_" ++ cat) ∈ m.feature_names →
      lookupCol (alignColumns (processRow inp) m.feature_names)
        ("city_district_" ++ cat) = some (Cell.v (Val.num 0))) := by
  refine ⟨⟨_, rfl⟩, ?_⟩
  intro cat hcat hmem
  rw [processRow_eq, lookupCol_alignColumns _ _ _ hmem,
    lookupCol_encodedRow_district inp cat hcat]
  rfl

/-- C5 amended, witness at the "Unknown"-district profile and demo model. -/
theorem claim_C5_amended_witness :
    lookupCol (alignColumns (processRow unknownProfile) demoModelHalf.feature_names)
      ("city_district_" ++ "North") = some (Cell.v (Val.num 0)) :=
  (claim_C5_amended demoModelHalf unknownProfile (by simp [unknownProfile])).2
    "North" (by simp) (by simp [demoModelHalf, demoSchema])

/-- C6 counterexample: a request with `avg_weekly_trips = 0` does NOT fail
with DivisionByZero — pandas division yields infinity, the pipeline keeps
going, and a ScoreResult is produced. -/
theorem claim_C6_counterexample :
    predict (some demoModelHalf) tripsZeroProfile = Except.ok ⟨575, "50.00%"⟩ :=
  predict_demoHalf tripsZeroProfile

/-- C6 amended: with `avg_weekly_trips = 0` (and positive earnings) the
division is unguarded: `earnings_per_trip` becomes the IEEE infinity, no
DivisionByZero error is raised, and a FeatureVector and ScoreResult are still
produced. -/
theorem claim_C6_amended (m : Model) (inp : PartnerInput)
    (h0 : inp.avg_weekly_trips = 0) (h1 : 0 < inp.avg_weekly_earnings) :
    lookupCol (processRow inp) "earnings_per_trip" = some (Cell.v Val.inf) ∧
    (∃ r, predict (some m) inp = Except.ok r) := by
  refine ⟨?_, ⟨_, rfl⟩⟩
  rw [processRow_eq]
  have hl : lookupCol (encodedRow inp) "earnings_per_trip" =
      some (Cell.v (Val.div (Val.num inp.avg_weekly_earnings)
        (Val.num inp.avg_weekly_trips))) := by
    simp [encodedRow, lookupCol]
  rw [hl, h0]
  simp [Val.div, ne_of_gt h1, h1]

/-- C6 amended, witness at the zero-trips profile. -/
theorem claim_C6_amended_witness :
    lookupCol (processRow tripsZeroProfile) "earnings_per_trip"
      = some (Cell.v Val.inf) :=
  (claim_C6_amended demoModelHalf tripsZeroProfile rfl
    (by norm_num [tripsZeroProfile])).1

/-- C7 counterexample: the produced response renders the probability as the
percent string "50.00%" (Python `f"{p:.2%}"`), not as the raw float 0.5 —
the percentage rendering happens inside the pipeline, not in a consumer. -/
theorem claim_C7_counterexample :
    predict (some demoModelHalf) eastProfile = Except.ok ⟨575, "50.00%"⟩ :=
  predict_demoHalf eastProfile

/-- C7 amended: `nova_score` is returned as an integer, but
`repayment_probability` is returned as a two-decimal percentage string
(rendered from the probability by the pipeline itself), not as a raw float. -/
theorem claim_C7_amended (m : Model) (inp : PartnerInput) :
    predict (some m) inp =
      Except.ok ⟨pyInt (300 + proba m inp * 550),
        render2 (pyRound (proba m inp * 100 * 100)) ++ "%"⟩ :=
  predict_some m inp

/-- C8: whenever the model's probability lies in [0,1], the produced
`nova_score` lies in [300, 850] (the truncated affine map stays in range). -/
theorem claim_C8_score_range (m : Model) (inp : PartnerInput)
    (h0 : 0 ≤ proba m inp) (h1 : proba m inp ≤ 1) :
    predict (some m) inp =
      Except.ok ⟨novaScoreCode (proba m inp), formatPercent (proba m inp)⟩ ∧
    300 ≤ novaScoreCode (proba m inp) ∧ novaScoreCode (proba m inp) ≤ 850 := by
  have hq : (0:ℚ) ≤ 300 + proba m inp * 550 := by
    have := mul_nonneg h0 (by norm_num : (0:ℚ) ≤ 550)
    linarith
  refine ⟨predict_some m inp, ?_, ?_⟩
  · rw [novaScoreCode, pyInt, if_neg (not_lt.mpr hq)]
    refine Int.le_floor.mpr ?_
    push_cast
    have := mul_nonneg h0 (by norm_num : (0:ℚ) ≤ 550)
    linarith
  · rw [novaScoreCode, pyInt, if_neg (not_lt.mpr hq)]
    have h550 : proba m inp * 550 ≤ 550 := by
      have := mul_le_mul_of_nonneg_right h1 (by norm_num : (0:ℚ) ≤ 550)
      linarith [this]
    have hle : (300:ℚ) + proba m inp * 550 ≤ 850 := by linarith
    have := Int.floor_mono hle
    have h850 : ⌊(850:ℚ)⌋ = 850 := by norm_num
    omega
  
/-- C8 witness at the demo model with constant probability 1/2. -/
theorem claim_C8_witness :
    300 ≤ novaScoreCode (proba demoModelHalf eastProfile) ∧
      novaScoreCode (proba demoModelHalf eastProfile) ≤ 850 :=
  (claim_C8_score_range demoModelHalf eastProfile
    (by norm_num [proba, demoModelHalf]) (by norm_num [proba, demoModelHalf])).2

/-- C9: when no model was loaded at process start (`model = None`), every
scoring request returns the structured error payload
`{'error': 'Model not loaded on the server'}` with HTTP status 500 — the
spec's ModelUnavailable service-level error — and never a score; since the
model is loaded only once at startup, the service keeps refusing until a
model is present. -/
theorem claim_C9_model_unavailable (inp : PartnerInput) :
    predict none inp = Except.error ("Model not loaded on the server", 500) := rfl

/-- C10: Feature Derivation appends `earnings_per_trip =
avg_weekly_earnings / avg_weekly_trips` and `rating_x_tenure =
avg_customer_rating * tenure_months` as two new columns at the end, leaving
all existing columns untouched; on the spec's concrete profile (tenure 24,
rating 4.8, earnings 15000, trips 80) they evaluate to 187.5 and 115.2. -/
theorem claim_C10_feature_derivation (inp : PartnerInput) :
    deriveFeatures (addDefaults (toRow inp)) = addDefaults (toRow inp) ++ derivedCols inp ∧
    lookupCol (deriveFeatures (addDefaults (toRow eastProfile))) "earnings_per_trip"
      = some (Cell.v (Val.num (375/2))) ∧
    lookupCol (deriveFeatures (addDefaults (toRow eastProfile))) "rating_x_tenure"
      = some (Cell.v (Val.num (576/5))) := by
  refine ⟨?_, ?_, ?_⟩
  · rw [addDefaults_toRow, deriveFeatures_baseRow]
  · rw [addDefaults_toRow, deriveFeatures_baseRow]
    simp only [baseRow, derivedCols, eastProfile, lookupCol]
    norm_num [Val.div]
    simp
  · rw [addDefaults_toRow, deriveFeatures_baseRow]
    simp only [baseRow, derivedCols, eastProfile, lookupCol]
    norm_num [Val.mul]
    simp
